import Mathlib

/-!
Shallow embedding of the SAGE conversational RAG orchestrator
(`backend/app/services/groq_service.py`, class `GroqAcademicService`) and of
the course search endpoint (`backend/app/api/endpoints/courses.py`,
`search_courses`).

Modelling conventions:
* Python floats are modelled as exact rationals; binary floating-point
  rounding is out of scope.
* External collaborators (ChromaDB search, PostgreSQL, the Groq completion
  API, the langdetect classifier) are modelled as explicit oracle arguments:
  a provider call that can fail is an `Except Unit` value, the completion
  service is a function from the call index to its result, and the language
  classifier is a function returning an ISO code or `none` on a
  `LangDetectException`.
* ChromaDB metadata maps are modelled as per-domain structures; string
  fields hold `""` where the stored value is the empty string (the scripts in
  `backend/scripts/create_*_embeddings.py` always store string fields via
  `str(...)` and `distance_from_campus` via `float(...)`), and Python
  truthiness tests `if metadata.get(k):` become `≠ ""` / `Option` matches
  with a `≠ 0` test for numbers.
-/

/-- Response language tag: the service only distinguishes Turkish from
everything else (`detect_language`). -/
inductive Lang
| tr
| en
deriving DecidableEq

/-- Role of a chat turn. -/
inductive Role
| user
| assistant
| system
deriving DecidableEq

/-- One chat turn, as in the Python dicts
`\x7b"role": ..., "content": ...\x7d`. -/
structure Msg where
  role : Role
  content : String
deriving DecidableEq

/-- `detect_language` (groq_service.py lines 44-50): run the external
classifier; map `"tr"` to Turkish, any other code to English; on a
`LangDetectException` (modelled as `none`) default to English. -/
def detectLanguage (classifier : String → Option String) (text : String) : Lang :=
  match classifier text with
  | some code => if code = "tr" then Lang.tr else Lang.en
  | none => Lang.en

/-- Similarity score of a retrieval hit (groq_service.py lines 116-117,
463, 537): `1.0 - distance if distance is not None else 0.0`.
Note: the source applies no clamping here. -/
def similarity (distance : Option ℚ) : ℚ :=
  match distance with
  | some d => 1 - d
  | none => 0

/-- Modelled from the spec: the spec's own formula
`similarity = clamp(1 - distance, 0.0, 1.0)` when distance is present, else
`0.0`. Stated only to compare the spec's words with `similarity`, the
formula of the source. -/
def specSimilarity (distance : Option ℚ) : ℚ :=
  match distance with
  | some d => max 0 (min 1 (1 - d))
  | none => 0

/-- Round half to even at integer precision, the tie-breaking rule used by
Python float formatting, transported to exact rationals. -/
def roundHalfEven (q : ℚ) : ℤ :=
  let f := ⌊q⌋
  let r := q - (f : ℚ)
  if r < 1 / 2 then f
  else if 1 / 2 < r then f + 1
  else if f % 2 = 0 then f else f + 1

/-- Python `f"\x7bq:.1f\x7d"` over exact rationals: one digit after the
decimal point, round half to even. -/
def fmt1 (q : ℚ) : String :=
  let n : ℤ := roundHalfEven (q * 10)
  if 0 ≤ n then toString (n / 10) ++ "." ++ toString (n % 10)
  else "-" ++ toString ((-n) / 10) ++ "." ++ toString ((-n) % 10)

/-- Python `int(q)` for the nonnegative rationals that reach it:
truncation toward zero. -/
def pyInt (q : ℚ) : ℤ :=
  if 0 ≤ q then ⌊q⌋ else -⌊-q⌋

/-- Python string slicing `s[:n]`: the first `n` characters. -/
def pyTake (s : String) (n : ℕ) : String := String.mk (s.data.take n)

/-! ### Course retrieval (groq_service.py lines 86-175) -/

/-- ChromaDB metadata of one `tedu_courses` hit. `instructor` is tested with
Python truthiness (`metadata.get('instructor')`), so the empty string stands
for a missing/empty value. -/
structure CourseMeta where
  course_code : String
  course_title : String
  instructor : String
deriving DecidableEq

/-- One vector-search hit for a course: metadata, embedded document and the
provider's distance (`None` when the provider sends no distances). -/
structure CourseHit where
  metadata : CourseMeta
  document : String
  distance : Option ℚ
deriving DecidableEq

/-- Context lines contributed by one course hit
(groq_service.py lines 111-130). -/
def courseHitParts (h : CourseHit) : List String :=
  ["\n[Relevance: " ++ fmt1 (similarity h.distance * 100) ++ "%] "
      ++ h.metadata.course_code ++ " - " ++ h.metadata.course_title]
  ++ (if h.metadata.instructor ≠ "" then ["Instructor: " ++ h.metadata.instructor] else [])
  ++ (if h.document ≠ "" then ["Content: " ++ pyTake h.document 500 ++ "...\n"] else [])

/-- Formatting of a course hit list (groq_service.py lines 105-132): empty
hit sequence yields the empty string, otherwise a header followed by the
per-hit lines, joined by newlines. -/
def formatCourseHits (hits : List CourseHit) : String :=
  if hits.isEmpty then ""
  else String.intercalate "\n"
    ("RELEVANT COURSES (Semantic Search Results):\n" :: (hits.map courseHitParts).flatten)

/-- One row of the PostgreSQL `courses` table as used by
`_fallback_course_search`. -/
structure CourseRow where
  course_code : String
  course_title : String
  catalog_description : String
  instructor : String
deriving DecidableEq

/-- Context lines of one fallback row (groq_service.py lines 161-169). -/
def fallbackRowParts (c : CourseRow) : List String :=
  ["\n" ++ c.course_code ++ " - " ++ c.course_title]
  ++ (if c.instructor ≠ "" then ["Instructor: " ++ c.instructor] else [])
  ++ (if c.catalog_description ≠ "" then ["Description: " ++ pyTake c.catalog_description 300 ++ "\n"] else [])

/-- `_fallback_course_search` (groq_service.py lines 139-175): the PostgreSQL
keyword search. The SQL query (ILIKE filters and LIMIT top_k) is the
oracle; a database error (`.error`) or an empty row set yields `""`. -/
def fallbackCourseSearch (rows : Except Unit (List CourseRow)) : String :=
  match rows with
  | .error _ => ""
  | .ok rs =>
    if rs.isEmpty then ""
    else String.intercalate "\n"
      ("RELEVANT COURSES (Keyword Search):\n" :: (rs.map fallbackRowParts).flatten)

/-- `get_course_context_with_embeddings` (groq_service.py lines 86-137):
format the ChromaDB hits; on any provider error fall back to the PostgreSQL
keyword search. -/
def getCourseContextWithEmbeddings (vectorResult : Except Unit (List CourseHit))
    (pgRows : Except Unit (List CourseRow)) : String :=
  match vectorResult with
  | .ok hits => formatCourseHits hits
  | .error _ => fallbackCourseSearch pgRows

/-! ### Venue retrieval (groq_service.py lines 393-506) -/

/-- ChromaDB metadata of one dining/entertainment hit, per the metadata laid
down by `create_places_embeddings.py` / `create_restaurant_embeddings.py`:
string fields are always strings (possibly `""`), `distance_from_campus` is a
float; `none` models an absent key (the `.get` default paths). -/
structure VenueMeta where
  name : String
  category : String
  cuisine_type : String
  distance_from_campus : Option ℚ
  price : String
  address : String
  tags : String
  phone : String
deriving DecidableEq

/-- One merged venue search result (groq_service.py lines 414-418). -/
structure VenueHit where
  metadata : VenueMeta
  document : String
  distance : Option ℚ
deriving DecidableEq

/-- Sort key of the venue merge (groq_service.py line 452):
`float(r['metadata'].get('distance_from_campus', 999.0))`. -/
def venueSortKey (h : VenueHit) : ℚ :=
  match h.metadata.distance_from_campus with
  | some d => d
  | none => 999

/-- The `sorted(..., key=...)` call of groq_service.py lines 450-453: Python
sorted is a stable ascending sort by key, modelled by `List.mergeSort`. -/
def sortedVenues (l : List VenueHit) : List VenueHit :=
  l.mergeSort (fun a b => decide (venueSortKey a ≤ venueSortKey b))

/-- The distance display line (groq_service.py lines 476-485): meters
(`int(dist_km * 1000)`) below 1 km, else km with one decimal. -/
def distanceLine (d : ℚ) : String :=
  if d < 1 then "Distance: " ++ toString (pyInt (d * 1000)) ++ " meters from campus"
  else "Distance: " ++ fmt1 d ++ " km from campus"

/-- Context lines of one venue (groq_service.py lines 458-500). Each
`if metadata.get(k):` truthiness test becomes `≠ ""` on a string field and
presence-and-nonzero on the float field. -/
def venueParts (h : VenueHit) : List String :=
  ["\n[Relevance: " ++ fmt1 (similarity h.distance * 100) ++ "%] " ++ h.metadata.name]
  ++ (if h.metadata.category ≠ "" then ["Category: " ++ h.metadata.category] else [])
  ++ (if h.metadata.cuisine_type ≠ "" then ["Cuisine: " ++ h.metadata.cuisine_type] else [])
  ++ (match h.metadata.distance_from_campus with
      | some d => if d ≠ 0 then [distanceLine d] else []
      | none => [])
  ++ (if h.metadata.price ≠ "" then ["Price: " ++ h.metadata.price] else [])
  ++ (if h.metadata.address ≠ "" then ["Address: " ++ h.metadata.address] else [])
  ++ (if h.metadata.tags ≠ "" then ["Features: " ++ h.metadata.tags] else [])
  ++ (if h.metadata.phone ≠ "" then ["Phone: " ++ h.metadata.phone] else [])
  ++ [""]

/-- `get_restaurant_context` (groq_service.py lines 393-506): query the
`dining_places` and `entertainment_places` collections (each failure caught
per collection and contributing nothing), merge, sort by distance from
campus, truncate to `top_k`, format; empty merged set yields `""`. -/
def getRestaurantContext (dining : Except Unit (List VenueHit))
    (entertainment : Except Unit (List VenueHit)) (topK : ℕ) : String :=
  let allResults :=
    (match dining with | .ok l => l | .error _ => [])
    ++ (match entertainment with | .ok l => l | .error _ => [])
  if allResults.isEmpty then ""
  else String.intercalate "\n"
    ("NEARBY VENUES (from database):\n"
      :: (((sortedVenues allResults).take topK).map venueParts).flatten)

/-! ### Event retrieval (groq_service.py lines 508-568) -/

/-- ChromaDB metadata of one `events` hit. -/
structure EventMeta where
  title : String
  category : String
  event_type : String
  event_date : String
  venue_name : String
  price_info : String
  ticket_url : String
deriving DecidableEq

/-- One event search hit. -/
structure EventHit where
  metadata : EventMeta
  document : String
  distance : Option ℚ
deriving DecidableEq

/-- Context lines of one event (groq_service.py lines 532-562). -/
def eventParts (h : EventHit) : List String :=
  ["\n[Relevance: " ++ fmt1 (similarity h.distance * 100) ++ "%] " ++ h.metadata.title]
  ++ (if h.metadata.category ≠ "" then ["Category: " ++ h.metadata.category] else [])
  ++ (if h.metadata.event_type ≠ "" then ["Type: " ++ h.metadata.event_type] else [])
  ++ (if h.metadata.event_date ≠ "" then ["Date: " ++ h.metadata.event_date] else [])
  ++ (if h.metadata.venue_name ≠ "" then ["Venue: " ++ h.metadata.venue_name] else [])
  ++ (if h.metadata.price_info ≠ "" then ["Price: " ++ h.metadata.price_info] else [])
  ++ (if h.metadata.ticket_url ≠ "" then ["Ticket URL: " ++ h.metadata.ticket_url] else [])
  ++ [""]

/-- `get_event_context` (groq_service.py lines 508-568): provider error or
empty hit sequence yields `""`. -/
def getEventContext (events : Except Unit (List EventHit)) : String :=
  match events with
  | .error _ => ""
  | .ok hits =>
    if hits.isEmpty then ""
    else String.intercalate "\n"
      ("UPCOMING EVENTS IN ANKARA:\n" :: (hits.map eventParts).flatten)

/-! ### Query expansion (groq_service.py lines 271-292)

The pattern of line 281 is the raw regex of the source; its three character
classes (ASCII uppercase letters, whitespace, digits) are pairwise disjoint,
so the greedy left-to-right scan of the regex engine never benefits from
backtracking on this pattern, and the matcher below is a direct greedy
implementation. Course codes are ASCII, so the ASCII reading of the
character classes is faithful here. -/

/-- `[A-Z]`. -/
def isUpperAZ (c : Char) : Bool := 'A' ≤ c && c ≤ 'Z'

/-- `[0-9]` (`\d` on the ASCII inputs at hand). -/
def isDigit09 (c : Char) : Bool := '0' ≤ c && c ≤ '9'

/-- Word character for `\b`: `[A-Za-z0-9_]`. -/
def isWordChar (c : Char) : Bool :=
  isUpperAZ c || ('a' ≤ c && c ≤ 'z') || isDigit09 c || c = '_'

/-- Whitespace for `\s` (the ASCII cases). -/
def isSpaceChar (c : Char) : Bool :=
  c = ' ' || c = '\t' || c = '\n' || c = '\r' || c = '\x0b' || c = '\x0c'

/-- Greedy match of `[A-Z]\x7b2,4\x7d\s*\d\x7b3\x7d\b` at the head of `cs`:
2-4 uppercase letters (the full maximal run, which must not exceed 4), any
whitespace, exactly 3 digits, and no word character right after. Returns the
matched characters and the rest. The leading `\b` is the caller's duty. -/
def matchCodeAt (cs : List Char) : Option (List Char × List Char) :=
  let letters := cs.takeWhile isUpperAZ
  if letters.length < 2 || 4 < letters.length then none
  else
    let rest1 := cs.drop letters.length
    let spaces := rest1.takeWhile isSpaceChar
    let rest2 := rest1.drop spaces.length
    let digits := rest2.takeWhile isDigit09
    if digits.length = 3 then
      match (rest2.drop 3).head? with
      | some c => if isWordChar c then none else some (letters ++ spaces ++ digits, rest2.drop 3)
      | none => some (letters ++ spaces ++ digits, rest2.drop 3)
    else none

/-- Left-to-right non-overlapping scan of `re.findall`, with explicit fuel
(each step consumes at least one character, so `cs.length` fuel suffices).
`prev` is the character before the current position, for the `\b` test. -/
def findCodesAux (fuel : ℕ) (prev : Option Char) (cs : List Char) : List String :=
  match fuel, cs with
  | 0, _ => []
  | _, [] => []
  | fuel + 1, c :: rest =>
    let boundaryOk := match prev with | none => true | some p => !isWordChar p
    if boundaryOk then
      match matchCodeAt (c :: rest) with
      | some (m, rest2) => String.mk m :: findCodesAux fuel (some '0') rest2
      | none => findCodesAux fuel (some c) rest
    else findCodesAux fuel (some c) rest

/-- `re.findall(r'\b[A-Z]\x7b2,4\x7d\s*\d\x7b3\x7d\b', s)`
(groq_service.py line 281). Every match ends in a digit, so after a match the
scan continues with a word character (recorded as `'0'`) as `prev`. -/
def findCourseCodes (s : String) : List String :=
  findCodesAux s.data.length none s.data

/-- Context tokens contributed by one history turn (groq_service.py lines
275-283): a user turn contributes its raw text, an assistant turn up to two
course-code matches, a system turn nothing. -/
def turnContext (m : Msg) : List String :=
  match m.role with
  | .user => [m.content]
  | .assistant => (findCourseCodes m.content).take 2
  | .system => []

/-- The retrieval-query build of `chat` (groq_service.py lines 271-287):
with a non-empty history, collect context from the last 3 turns and put it
in front of the current query (`f"..." ` of line 287); otherwise, and when
nothing was collected, the query is unchanged. -/
def buildSearchQuery (userMessage : String) (history : List Msg) : String :=
  if history.isEmpty then userMessage
  else
    let recentContext := ((history.drop (history.length - 3)).map turnContext).flatten
    if recentContext.isEmpty then userMessage
    else String.intercalate " " recentContext ++ " " ++ userMessage

/-! ### Prompts and fixed strings (groq_service.py lines 177-246, 570-725,
328-331, 386-389, 822-836)

The persona system prompts are multi-hundred-line fixed templates; no claim
depends on their text, so they are abridged here to their opening line, the
interpolated project context (academic persona only) and a closing marker,
keeping the exact structure `header ++ context ++ tail` of the source
f-strings. -/

/-- `create_system_prompt` (groq_service.py lines 177-246), abridged. -/
def createSystemPrompt (language : Lang) (projectContext : String) : String :=
  match language with
  | .tr =>
    "Sen SAGE (Student Academic Guidance and Engagement) sisteminin akademik asistanısın.\n"
      ++ projectContext ++ "\nGÖREVLER: ..."
  | .en =>
    "You are the academic assistant for SAGE (Student Academic Guidance and Engagement) system.\n"
      ++ projectContext ++ "\nYOUR RESPONSIBILITIES: ..."

/-- `create_social_system_prompt` (groq_service.py lines 570-725), abridged.
(Source line 725 carries a stray trailing quote; the evident intended
return, Turkish prompt for `tr` and English otherwise, is modelled.) -/
def createSocialSystemPrompt (language : Lang) : String :=
  match language with
  | .tr => "SAGE (Student Academic Guidance and Engagement) sisteminin sosyal asistanısın.\n..."
  | .en => "You are the social assistant for SAGE (Student Academic Guidance and Engagement) system.\n..."

/-- The fixed completion-failure apology (groq_service.py lines 328-331,
386-389, 833-836). -/
def apologyUnavailable (language : Lang) : String :=
  match language with
  | .tr => "Üzgünüm, şu anda yanıt oluşturamıyorum. Lütfen daha sonra tekrar deneyin."
  | .en => "I\x27m sorry, I cannot generate a response at the moment. Please try again later."

/-- The fixed hand-authored language-fallback apology of the social
assistant (groq_service.py lines 822-825). -/
def langFallback (language : Lang) : String :=
  match language with
  | .tr => "Üzgünüm, yanıtı Türkçe oluşturamadım. Lütfen tekrar deneyin."
  | .en => "Sorry, I couldn\x27t produce a response in English. Please try again."

/-! ### The orchestrator turns (groq_service.py lines 248-389, 727-836) -/

/-- The external collaborators of one turn: the language classifier, the
project-documentation context (result of `get_project_context`), and the
per-collection search providers, each a function of the query string. -/
structure ChatEnv where
  classify : String → Option String
  projectContext : String
  courseProvider : String → Except Unit (List CourseHit)
  coursePg : String → Except Unit (List CourseRow)
  dining : String → Except Unit (List VenueHit)
  entertainment : String → Except Unit (List VenueHit)
  events : String → Except Unit (List EventHit)

/-- Result of one blocking turn: the message list sent to the completion
service (for the social retry path, the retry message list), the text
returned to the caller, and the number of completion-service calls issued. -/
structure TurnResult where
  messages : List Msg
  text : String
  calls : ℕ
deriving DecidableEq

/-- `chat` (groq_service.py lines 248-331), the academic blocking turn.
`completions` is the Groq client: call index ↦ generated text or provider
error. Retrieval uses the expanded `search_query`; the message list carries
the raw `user_message` (plus the formatted context block). No language
verification happens on this path. -/
def chat (env : ChatEnv) (userMessage : String) (history : List Msg)
    (includeCourses : Bool) (completions : ℕ → Except Unit String) : TurnResult :=
  let language := detectLanguage env.classify userMessage
  let searchQuery := buildSearchQuery userMessage history
  let courseContext :=
    if includeCourses then
      getCourseContextWithEmbeddings (env.courseProvider searchQuery) (env.coursePg searchQuery)
    else ""
  let systemPrompt := createSystemPrompt language env.projectContext
  let enhancedMessage :=
    if courseContext ≠ "" then userMessage ++ "\n\n" ++ courseContext else userMessage
  let messages :=
    Msg.mk .system systemPrompt
      :: (history.drop (history.length - 10) ++ [Msg.mk .user enhancedMessage])
  match completions 0 with
  | .ok text => ⟨messages, text, 1⟩
  | .error _ => ⟨messages, apologyUnavailable language, 1⟩

/-- Result of one streaming turn: the message list sent, the chunks
forwarded, and the number of completion-service calls. -/
structure StreamResult where
  messages : List Msg
  chunks : List String
  calls : ℕ
deriving DecidableEq

/-- `chat_stream` (groq_service.py lines 333-389): single streaming
completion call; only truthy (non-empty) chunk contents are yielded; on
provider error a single fixed apology chunk is yielded. Note the streaming
path expands no query and verifies no language. -/
def chatStream (env : ChatEnv) (userMessage : String) (history : List Msg)
    (includeCourses : Bool) (streamCall : Except Unit (List String)) : StreamResult :=
  let language := detectLanguage env.classify userMessage
  let courseContext :=
    if includeCourses then
      getCourseContextWithEmbeddings (env.courseProvider userMessage) (env.coursePg userMessage)
    else ""
  let systemPrompt := createSystemPrompt language env.projectContext
  let enhancedMessage :=
    if courseContext ≠ "" then userMessage ++ "\n\n" ++ courseContext else userMessage
  let messages :=
    Msg.mk .system systemPrompt
      :: (history.drop (history.length - 10) ++ [Msg.mk .user enhancedMessage])
  match streamCall with
  | .ok chunks => ⟨messages, chunks.filter (fun c => c ≠ ""), 1⟩
  | .error _ => ⟨messages, [apologyUnavailable language], 1⟩

/-- `chat_social` (groq_service.py lines 727-836), the social blocking turn
with the language-consistency verifier: first completion at temperature 0.5;
if the detected response language differs from the expected one, a single
retry with the urgent directive at temperature 0.0; if still mismatched, the
fixed `langFallback` apology. A provider error on either call yields the
fixed `apologyUnavailable` apology. -/
def chatSocial (env : ChatEnv) (userMessage : String) (history : List Msg)
    (completions : ℕ → Except Unit String) : TurnResult :=
  let language := detectLanguage env.classify userMessage
  let restaurantContext := getRestaurantContext (env.dining userMessage) (env.entertainment userMessage) 10
  let eventContext := getEventContext (env.events userMessage)
  let systemPrompt := createSocialSystemPrompt language
  let langLabel := if language = Lang.tr then "Turkish" else "English"
  let langInstruction :=
    "STRICTLY: Respond only in " ++ langLabel ++ ". Do not use other languages or translate content."
  let contextParts :=
    (if restaurantContext ≠ "" then [restaurantContext] else [])
    ++ (if eventContext ≠ "" then [eventContext] else [])
  let enhancedMessage :=
    if contextParts.isEmpty then userMessage
    else userMessage ++ "\n\n" ++ String.intercalate "\n\n" contextParts
  let historySlice := history.drop (history.length - 10)
  let messages :=
    Msg.mk .system systemPrompt :: Msg.mk .system langInstruction
      :: (historySlice ++ [Msg.mk .user enhancedMessage])
  match completions 0 with
  | .error _ => ⟨messages, apologyUnavailable language, 1⟩
  | .ok resp =>
    let respLang := detectLanguage env.classify resp
    let expectedLang := if language = Lang.tr then Lang.tr else Lang.en
    if respLang ≠ expectedLang then
      let retryInstruction :=
        "URGENT: Reply only in " ++ langLabel ++ ". Do NOT translate or answer in any other language."
      let messagesRetry :=
        Msg.mk .system systemPrompt :: Msg.mk .system retryInstruction
          :: (historySlice ++ [Msg.mk .user enhancedMessage])
      match completions 1 with
      | .error _ => ⟨messagesRetry, apologyUnavailable language, 2⟩
      | .ok resp2 =>
        let respLang2 := detectLanguage env.classify resp2
        if respLang2 ≠ expectedLang then ⟨messagesRetry, langFallback language, 2⟩
        else ⟨messagesRetry, resp2, 2⟩
    else ⟨messages, resp, 1⟩

/-! ### Course search endpoint (api/endpoints/courses.py lines 98-210)

The exact-match short-circuit of the specification lives in the
`/search` endpoint, `search_courses`. -/

/-- One row of the exact-match PostgreSQL query (courses.py lines 119-127),
after the Python-side `or ''` / `str(...)` coalescing of SQL NULLs. -/
structure PgCourseRow where
  course_code : String
  course_title : String
  department : String
  level : String
  credits : String
  ects : String
  catalog_description : String
  prerequisites : List String
  instructor : String
  syllabus_url : String
  syllabus_pdf_url : String
deriving DecidableEq

/-- The endpoint's response record (courses.py lines 64-76). -/
structure CourseResponse where
  course_code : String
  course_title : String
  department : String
  level : String
  credits : String
  ects : String
  catalog_description : String
  prerequisites : List String
  instructor : String
  syllabus_url : String
  syllabus_pdf_url : String
  similarity_score : Option ℚ
deriving DecidableEq

/-- The exact-match response (courses.py lines 130-143):
`similarity_score = 1.0`. -/
def exactResponse (row : PgCourseRow) : CourseResponse :=
  { course_code := row.course_code
    course_title := row.course_title
    department := row.department
    level := row.level
    credits := row.credits
    ects := row.ects
    catalog_description := row.catalog_description
    prerequisites := row.prerequisites
    instructor := row.instructor
    syllabus_url := row.syllabus_url
    syllabus_pdf_url := row.syllabus_pdf_url
    similarity_score := some 1 }

/-- One ChromaDB hit of the endpoint's vector search, metadata fields after
the `metadata.get(k, '')` defaults (courses.py lines 176-205). -/
structure VecCourseHit where
  course_code : String
  course_title : String
  department : String
  level : String
  credits : String
  ects : String
  instructor : String
  syllabus_url : String
  syllabus_pdf_url : String
  document : String
  distance : Option ℚ
deriving DecidableEq

/-- A vector hit rendered as a response (courses.py lines 184-205). This
similarity IS clamped: `max(0.0, min(1.0, 1 - distance))`. -/
def vecResponse (h : VecCourseHit) : CourseResponse :=
  { course_code := h.course_code
    course_title := h.course_title
    department := h.department
    level := h.level
    credits := h.credits
    ects := h.ects
    catalog_description := pyTake h.document 500
    prerequisites := []
    instructor := h.instructor
    syllabus_url := h.syllabus_url
    syllabus_pdf_url := h.syllabus_pdf_url
    similarity_score :=
      match h.distance with
      | some d => some (max 0 (min 1 (1 - d)))
      | none => none }

/-- Python `str.upper()` on the ASCII course-code strings at hand. -/
def upperStr (s : String) : String := String.mk (s.data.map Char.toUpper)

/-- Python `.replace(" ", "")`. -/
def stripSpaces (s : String) : String := String.mk (s.data.filter (fun c => c ≠ ' '))

/-- `re.match(r'^[A-Z]\x7b2,4\x7d\s*\d\x7b3\x7d$', query.upper())`
(courses.py line 110). Again the character classes are pairwise disjoint,
so the greedy scan is exact; `$` also accepts one trailing newline (the
Python `$` rule). -/
def isCodeQuery (query : String) : Bool :=
  let cs := (upperStr query).data
  let letters := cs.takeWhile isUpperAZ
  if letters.length < 2 || 4 < letters.length then false
  else
    let rest1 := cs.drop letters.length
    let spaces := rest1.takeWhile isSpaceChar
    let rest2 := rest1.drop spaces.length
    let digits := rest2.takeWhile isDigit09
    if digits.length = 3 then
      match rest2.drop 3 with
      | [] => true
      | [c] => c = '\n'
      | _ => false
    else false

/-- `search_courses` (courses.py lines 98-210). `pgLookup` is the exact-code
PostgreSQL query keyed by the space-stripped uppercased query (a lookup
error and a missing row are both `none`, per the try/except of lines
116-145); `vecQuery` is the ChromaDB search as a function of the requested
`n_results` (the embedded query text, boosted for code queries on lines
148-152, is abstracted into the oracle). -/
def searchCourses (query : String) (topK : ℤ) (pgLookup : String → Option PgCourseRow)
    (vecQuery : ℤ → List VecCourseHit) : List CourseResponse :=
  let queryUpper := stripSpaces (upperStr query)
  let exactMatch : Option CourseResponse :=
    if isCodeQuery query then (pgLookup queryUpper).map exactResponse else none
  let searchLimit : ℤ := if exactMatch.isSome then topK - 1 else topK
  let results := vecQuery (max searchLimit 1)
  let base : List CourseResponse :=
    match exactMatch with
    | some e => [e]
    | none => []
  base ++ results.filterMap (fun h =>
    match exactMatch with
    | some e => if h.course_code = e.course_code then none else some (vecResponse h)
    | none => some (vecResponse h))

/-! ## Claims -/

/-- C1, counterexample: at provider distance `2` (cosine distances range up
to 2), the source's similarity is `-1`, not the clamped value `0` the claim
states, and it violates the claimed `[0,1]` bound. -/
theorem C1_counterexample :
    similarity (some 2) = -1 ∧
    similarity (some 2) ≠ specSimilarity (some 2) ∧
    ¬ (0 ≤ similarity (some 2) ∧ similarity (some 2) ≤ 1) := by
  refine ⟨by norm_num [similarity], by norm_num [similarity, specSimilarity], ?_⟩
  rintro ⟨h0, _⟩
  norm_num [similarity] at h0

/-- C1 (amended): for every retrieval hit of the orchestrator, similarity is
the unclamped `1 - distance` when the distance is non-null and `0.0` when it
is null; the bound `0 ≤ similarity ≤ 1` holds exactly when the provider's
distance lies in `[0, 1]`. -/
theorem C1_similarity_unclamped :
    similarity none = 0 ∧
    ∀ d : ℚ, similarity (some d) = 1 - d ∧
      ((0 ≤ similarity (some d) ∧ similarity (some d) ≤ 1) ↔ (0 ≤ d ∧ d ≤ 1)) := by
  refine ⟨rfl, fun d => ⟨rfl, ?_⟩⟩
  simp only [similarity]
  constructor
  · rintro ⟨h1, h2⟩
    exact ⟨by linarith, by linarith⟩
  · rintro ⟨h1, h2⟩
    exact ⟨by linarith, by linarith⟩

/-- C3: one orchestrator turn issues at most 2 completion-service calls for
any input: the academic blocking turn and the streaming turn issue exactly
one, the social blocking turn at most two (one normal call plus at most one
language-mismatch retry); a third call never occurs. -/
theorem C3_bounded_completion_calls :
    ∀ (env : ChatEnv) (msg : String) (hist : List Msg) (inc : Bool)
      (compl : ℕ → Except Unit String) (stream : Except Unit (List String)),
      (chat env msg hist inc compl).calls = 1 ∧
      (chatStream env msg hist inc stream).calls = 1 ∧
      (chatSocial env msg hist compl).calls ≤ 2 := by
  intro env msg hist inc compl stream
  refine ⟨?_, ?_, ?_⟩
  · unfold chat
    cases compl 0 <;> rfl
  · unfold chatStream
    cases stream <;> rfl
  · cases h0 : compl 0 with
    | error e => simp [chatSocial, h0]
    | ok r =>
      cases h1 : compl 1 with
      | error e => simp only [chatSocial, h0, h1]; split_ifs <;> simp
      | ok r2 => simp only [chatSocial, h0, h1]; split_ifs <;> simp

/-- C5, counterexample: when the course collection query errors, course
retrieval does not return an empty context block — it substitutes the
result of the PostgreSQL keyword search (`_fallback_course_search`), here
non-empty. -/
theorem C5_counterexample :
    getCourseContextWithEmbeddings (.error ())
        (.ok [⟨"CMPE 113", "Introduction to Programming", "Basics of programming.", "Dr. X"⟩])
      = fallbackCourseSearch
          (.ok [⟨"CMPE 113", "Introduction to Programming", "Basics of programming.", "Dr. X"⟩]) ∧
    getCourseContextWithEmbeddings (.error ())
        (.ok [⟨"CMPE 113", "Introduction to Programming", "Basics of programming.", "Dr. X"⟩])
      ≠ "" := by
  refine ⟨rfl, ?_⟩
  intro he
  have h : (getCourseContextWithEmbeddings (.error ())
      (.ok [⟨"CMPE 113", "Introduction to Programming", "Basics of programming.", "Dr. X"⟩])).data.head?
        = some 'R' := rfl
  rw [he] at h
  exact absurd h (by decide)

/-- C5 (amended): a venue or event collection query that errors yields the
empty context block and the error never propagates; the course collection
query, on provider error, instead falls back to the PostgreSQL keyword
search and returns its (possibly non-empty) formatted result, itself
degrading to the empty string when that fallback fails too. -/
theorem C5_provider_error_handling :
    (∀ topK, getRestaurantContext (.error ()) (.error ()) topK = "") ∧
    getEventContext (.error ()) = "" ∧
    (∀ pgRows, getCourseContextWithEmbeddings (.error ()) pgRows = fallbackCourseSearch pgRows) ∧
    fallbackCourseSearch (.error ()) = "" := by
  exact ⟨fun _ => rfl, rfl, fun _ => rfl, rfl⟩

/-- Helper: the last element of a message list of the assembled shape. -/
lemma getLast_cons_append {α : Type} (a : α) (l : List α) (u : α) :
    (a :: (l ++ [u])).getLast? = some u := by
  rw [show a :: (l ++ [u]) = (a :: l) ++ [u] from rfl, List.getLast?_concat]

/-- C9: prompt assembly never mutates the history (the embedding is a pure
function of it; the source only reads `conversation_history[-10:]`): the
assembled message list is exactly the system turn(s), then the last
`min(10, length)` history turns verbatim and in their original order (a
suffix of the caller's list), then the final user turn. -/
theorem C9_prompt_assembly :
    ∀ (env : ChatEnv) (msg : String) (hist : List Msg) (inc : Bool)
      (compl : ℕ → Except Unit String),
      (∃ s e, (chat env msg hist inc compl).messages
          = Msg.mk .system s :: (hist.drop (hist.length - 10) ++ [Msg.mk .user e])) ∧
      (∃ s t e, (chatSocial env msg hist compl).messages
          = Msg.mk .system s :: Msg.mk .system t
              :: (hist.drop (hist.length - 10) ++ [Msg.mk .user e])) ∧
      (hist.drop (hist.length - 10)).length = min 10 hist.length ∧
      hist.drop (hist.length - 10) <:+ hist := by
  intro env msg hist inc compl
  refine ⟨?_, ?_, ?_, List.drop_suffix _ _⟩
  · unfold chat
    cases compl 0 with
    | ok t => exact ⟨_, _, rfl⟩
    | error e => exact ⟨_, _, rfl⟩
  · unfold chatSocial
    cases compl 0 with
    | error e => exact ⟨_, _, _, rfl⟩
    | ok r =>
      dsimp only
      repeat' split
      all_goals exact ⟨_, _, _, rfl⟩
  · rw [List.length_drop]
    omega

/-- C6: when every retrieval collection comes back empty, each formatter
returns the empty string (not a placeholder) and the final user turn of the
assembled message list is exactly the raw user text, with no trailing blank
line or context appendage. -/
theorem C6_context_omission :
    formatCourseHits [] = "" ∧
    (∀ topK, getRestaurantContext (.ok []) (.ok []) topK = "") ∧
    getEventContext (.ok []) = "" ∧
    (∀ (env : ChatEnv) (msg : String) (hist : List Msg) (compl : ℕ → Except Unit String),
      env.courseProvider (buildSearchQuery msg hist) = .ok [] →
        (chat env msg hist true compl).messages.getLast? = some (Msg.mk .user msg)) ∧
    (∀ (env : ChatEnv) (msg : String) (hist : List Msg) (compl : ℕ → Except Unit String),
      env.dining msg = .ok [] → env.entertainment msg = .ok [] → env.events msg = .ok [] →
        (chatSocial env msg hist compl).messages.getLast? = some (Msg.mk .user msg)) := by
  refine ⟨rfl, fun _ => rfl, rfl, ?_, ?_⟩
  · intro env msg hist compl h
    cases h0 : compl 0 with
    | ok r =>
      simp [chat, h, h0, getCourseContextWithEmbeddings, formatCourseHits, getLast_cons_append]
    | error e =>
      simp [chat, h, h0, getCourseContextWithEmbeddings, formatCourseHits, getLast_cons_append]
  · intro env msg hist compl h1 h2 h3
    have hrc : getRestaurantContext (Except.ok []) (Except.ok []) 10 = "" := rfl
    have hec : getEventContext (Except.ok ([] : List EventHit)) = "" := rfl
    cases h0 : compl 0 with
    | error e =>
      simp [chatSocial, h0, h1, h2, h3, hrc, hec, getLast_cons_append]
    | ok r =>
      cases h4 : compl 1 with
      | error e =>
        simp [chatSocial, h0, h4, h1, h2, h3, hrc, hec, getLast_cons_append, apply_ite]
      | ok r2 =>
        simp [chatSocial, h0, h4, h1, h2, h3, hrc, hec, getLast_cons_append, apply_ite]

/-- A stub environment in which every retrieval collection is empty. -/
def stubEnv : ChatEnv :=
  { classify := fun _ => some "en"
    projectContext := "ctx"
    courseProvider := fun _ => .ok []
    coursePg := fun _ => .ok []
    dining := fun _ => .ok []
    entertainment := fun _ => .ok []
    events := fun _ => .ok [] }

/-- Witness for C6 at a concrete input. -/
theorem C6_witness :
    (chat stubEnv "hello" [] true (fun _ => .ok "hi")).messages.getLast?
        = some (Msg.mk .user "hello") ∧
    (chatSocial stubEnv "hello" [] (fun _ => .ok "hi")).messages.getLast?
        = some (Msg.mk .user "hello") :=
  ⟨C6_context_omission.2.2.2.1 stubEnv "hello" [] (fun _ => .ok "hi") rfl,
   C6_context_omission.2.2.2.2 stubEnv "hello" [] (fun _ => .ok "hi") rfl rfl rfl⟩

/-- The stub environment whose classifier reads `"merhaba dunya"` as Turkish
and everything else as English. -/
def mixedEnv : ChatEnv :=
  { stubEnv with classify := fun s => if s = "merhaba dunya" then some "tr" else some "en" }

/-- C2, counterexample: on the academic blocking turn (`chat`) no language
verification happens at all — with an English user message and a completion
service that answers in Turkish on every call (so the first attempt and any
retry both mismatch), the caller receives the generated Turkish text, not
the fixed apology. -/
theorem C2_counterexample :
    detectLanguage mixedEnv.classify "hello" = Lang.en ∧
    detectLanguage mixedEnv.classify "merhaba dunya" ≠ Lang.en ∧
    (chat mixedEnv "hello" [] true (fun _ => .ok "merhaba dunya")).text = "merhaba dunya" ∧
    ("merhaba dunya" : String) ≠ langFallback Lang.en ∧
    ("merhaba dunya" : String) ≠ apologyUnavailable Lang.en := by
  refine ⟨by decide, by decide, ?_, by decide, by decide⟩
  rfl

/-- C2 (amended): on the social blocking turn (`chat_social`), if the first
completion's detected language differs from the expected one and the
retry's does too, the caller receives exactly the fixed hand-authored
apology for the expected language, never the generated text. The academic
blocking turn performs no language verification (see the counterexample). -/
theorem C2_social_language_fallback :
    ∀ (env : ChatEnv) (msg : String) (hist : List Msg)
      (compl : ℕ → Except Unit String) (r₁ r₂ : String),
      compl 0 = .ok r₁ → compl 1 = .ok r₂ →
      detectLanguage env.classify r₁ ≠ detectLanguage env.classify msg →
      detectLanguage env.classify r₂ ≠ detectLanguage env.classify msg →
      (chatSocial env msg hist compl).text = langFallback (detectLanguage env.classify msg) := by
  intro env msg hist compl r₁ r₂ h0 h1 m1 m2
  have hexp : (if detectLanguage env.classify msg = Lang.tr then Lang.tr else Lang.en)
      = detectLanguage env.classify msg := by
    cases detectLanguage env.classify msg <;> simp
  simp only [chatSocial, h0, h1, hexp]
  rw [if_pos m1, if_pos m2]

/-- Witness for C2 at a concrete input: English user message, everything
generated in Turkish; the result is the fixed English apology. -/
theorem C2_witness :
    detectLanguage mixedEnv.classify "merhaba dunya" ≠ detectLanguage mixedEnv.classify "hello" ∧
    (chatSocial mixedEnv "hello" [] (fun _ => .ok "merhaba dunya")).text
      = langFallback (detectLanguage mixedEnv.classify "hello") :=
  ⟨by decide,
   C2_social_language_fallback mixedEnv "hello" [] (fun _ => .ok "merhaba dunya")
     "merhaba dunya" "merhaba dunya" rfl rfl (by decide) (by decide)⟩

/-- The history of the spec's query-expansion example. -/
def exHist7 : List Msg :=
  [Msg.mk .user "tell me about CMPE 113", Msg.mk .assistant "CMPE 113 is taught by Dr. X"]

/-- C7: the retrieval query is expanded from the last 3 history turns (user
turns contribute their raw text, assistant turns up to 2 course-code
matches), prepended to the current query; on the spec's example the expanded
query contains the substring "CMPE 113"; and the message list sent to the
LLM carries the original, unexpanded user query (the final user turn is the
raw text, possibly with a formatted context block appended — never the
expanded retrieval query). -/
theorem C7_query_expansion :
    buildSearchQuery "who teaches it" exHist7
      = "tell me about " ++ "CMPE 113" ++ " " ++ "CMPE 113" ++ " who teaches it" ∧
    (∀ (msg : String) (hist : List Msg),
      buildSearchQuery msg hist = buildSearchQuery msg (hist.drop (hist.length - 3))) ∧
    (∀ (env : ChatEnv) (msg : String) (hist : List Msg) (compl : ℕ → Except Unit String),
      ∃ ctx, (chat env msg hist true compl).messages.getLast? = some (Msg.mk .user msg) ∨
        (chat env msg hist true compl).messages.getLast?
          = some (Msg.mk .user (msg ++ "\n\n" ++ ctx))) := by
  refine ⟨by decide, ?_, ?_⟩
  · intro msg hist
    have hdd : (hist.drop (hist.length - 3)).drop ((hist.drop (hist.length - 3)).length - 3)
        = hist.drop (hist.length - 3) := by
      rw [List.length_drop]
      have h0 : hist.length - (hist.length - 3) - 3 = 0 := by omega
      rw [h0, List.drop_zero]
    simp only [buildSearchQuery, hdd]
    rcases eq_or_ne hist [] with rfl | hne
    · rfl
    · have e1 : hist.isEmpty = false := by
        simpa [List.isEmpty_iff] using hne
      have e2 : (hist.drop (hist.length - 3)).isEmpty = false := by
        have hne2 : hist.drop (hist.length - 3) ≠ [] := by
          intro hd
          have hl := congrArg List.length hd
          rw [List.length_drop] at hl
          simp only [List.length_nil] at hl
          exact hne (List.eq_nil_of_length_eq_zero (by omega))
        simpa [List.isEmpty_iff] using hne2
      rw [e1, e2]
  · intro env msg hist compl
    cases h0 : compl 0 <;>
    · simp only [chat, h0, if_true]
      by_cases hc : getCourseContextWithEmbeddings
          (env.courseProvider (buildSearchQuery msg hist))
          (env.coursePg (buildSearchQuery msg hist)) ≠ ""
      · refine ⟨getCourseContextWithEmbeddings
            (env.courseProvider (buildSearchQuery msg hist))
            (env.coursePg (buildSearchQuery msg hist)), Or.inr ?_⟩
        rw [if_pos hc]
        exact getLast_cons_append _ _ _
      · refine ⟨"", Or.inl ?_⟩
        rw [if_neg hc]
        exact getLast_cons_append _ _ _

/-- C8: for a present venue distance `d` (km): below 1 km the line shows the
integer number of meters (`d * 1000` truncated, no decimals); at 1 km and
above it shows km with exactly one decimal digit. -/
theorem C8_distance_units :
    ∀ d : ℚ, 0 ≤ d →
      (d < 1 → distanceLine d
          = "Distance: " ++ toString ⌊d * 1000⌋ ++ " meters from campus") ∧
      (1 ≤ d → ∃ n : ℤ, 10 ≤ n ∧
        distanceLine d
          = "Distance: " ++ (toString (n / 10) ++ "." ++ toString (n % 10))
              ++ " km from campus") := by
  intro d hd
  constructor
  · intro hlt
    unfold distanceLine
    rw [if_pos hlt]
    unfold pyInt
    rw [if_pos (by positivity : (0:ℚ) ≤ d * 1000)]
  · intro hge
    have h10 : (10 : ℤ) ≤ ⌊d * 10⌋ := by
      rw [Int.le_floor]
      push_cast
      linarith
    have hn : 10 ≤ roundHalfEven (d * 10) := by
      unfold roundHalfEven
      dsimp only
      split_ifs <;> omega
    refine ⟨roundHalfEven (d * 10), hn, ?_⟩
    unfold distanceLine fmt1
    rw [if_neg (by linarith : ¬ d < 1), if_pos (by omega : (0:ℤ) ≤ roundHalfEven (d * 10))]

/-- Witness for C8: a venue at 0.999 km formats as 999 meters. -/
theorem C8_witness :
    (0 : ℚ) ≤ 999/1000 ∧ (999/1000 : ℚ) < 1 ∧
    distanceLine (999/1000) = "Distance: 999 meters from campus" := by
  refine ⟨by norm_num, by norm_num, ?_⟩
  have h := (C8_distance_units (999/1000) (by norm_num)).1 (by norm_num)
  rw [h]
  have hf : ⌊(999/1000 : ℚ) * 1000⌋ = 999 := by norm_num
  rw [hf]
  rfl

/-- Helper: a string whose first character is not `'D'` is no
`"Distance: "`-line. -/
lemma ne_distance_of_head (s : String) (c : Char) (hc : s.data.head? = some c)
    (hne : c ≠ 'D') : ∀ r : String, s ≠ "Distance: " ++ r := by
  intro r he
  rw [he] at hc
  have hd : (("Distance: " ++ r).data).head? = some 'D' := rfl
  rw [hd] at hc
  exact hne (Option.some.inj hc).symm

/-- Helper: the empty string is no `"Distance: "`-line. -/
lemma empty_ne_distance : ∀ r : String, ("" : String) ≠ "Distance: " ++ r := by
  intro r he
  have h2 : (("" : String).data).head? = (("Distance: " ++ r).data).head? := by rw [he]
  rw [show ((("" : String)).data).head? = none from rfl,
    show (("Distance: " ++ r).data).head? = some 'D' from rfl] at h2
  exact Option.noConfusion h2

/-- Helper: membership in a conditional singleton. -/
lemma mem_ite_singleton {c : Prop} [Decidable c] {x s : String}
    (hmem : s ∈ (if c then [x] else [])) : s = x := by
  split at hmem
  · simpa using hmem
  · simp at hmem

/-- C10: in the merged venue list, a hit whose metadata lacks
`distance_from_campus` sorts with key 999.0 and hence comes after every hit
with a recorded distance below 999.0 (equivalently: whatever follows a
missing-distance hit in the sorted order has key at least 999); and for a
hit whose distance is absent or equal to 0 (Python falsy), the formatted
block contains no Distance line for that venue. -/
theorem C10_venue_sort_and_distance_line :
    (∀ (l : List VenueHit) (i j : Fin (sortedVenues l).length), i < j →
      ((sortedVenues l).get i).metadata.distance_from_campus = none →
      ∀ d : ℚ, ((sortedVenues l).get j).metadata.distance_from_campus = some d →
        999 ≤ d) ∧
    (∀ h : VenueHit,
      (h.metadata.distance_from_campus = none ∨ h.metadata.distance_from_campus = some 0) →
      ∀ s ∈ venueParts h, ∀ r : String, s ≠ "Distance: " ++ r) := by
  constructor
  · have htrans : ∀ a b c : VenueHit,
        decide (venueSortKey a ≤ venueSortKey b) = true →
        decide (venueSortKey b ≤ venueSortKey c) = true →
        decide (venueSortKey a ≤ venueSortKey c) = true := by
      intro a b c hab hbc
      simp only [decide_eq_true_eq] at hab hbc ⊢
      exact le_trans hab hbc
    have htot : ∀ a b : VenueHit,
        (decide (venueSortKey a ≤ venueSortKey b)
          || decide (venueSortKey b ≤ venueSortKey a)) = true := by
      intro a b
      simp only [Bool.or_eq_true, decide_eq_true_eq]
      exact le_total _ _
    intro l i j hij hi d hj
    have hp : List.Pairwise
        (fun a b => decide (venueSortKey a ≤ venueSortKey b) = true) (sortedVenues l) :=
      List.sorted_mergeSort htrans htot l
    have hkey := List.pairwise_iff_get.mp hp i j hij
    simp only [decide_eq_true_eq] at hkey
    rw [venueSortKey, venueSortKey, hi, hj] at hkey
    exact hkey
  · intro h hopt s hs r
    have hd : (match h.metadata.distance_from_campus with
        | some d => if d ≠ 0 then [distanceLine d] else []
        | none => ([] : List String)) = [] := by
      rcases hopt with h1 | h1
      · rw [h1]
      · rw [h1]
        show (if (0 : ℚ) ≠ 0 then [distanceLine 0] else []) = []
        rw [if_neg (by norm_num)]
    simp only [venueParts] at hs
    rw [hd] at hs
    simp only [List.append_nil, List.nil_append, List.append_assoc] at hs
    rcases List.mem_append.mp hs with h1 | hs
    · have h2 := List.mem_singleton.mp h1
      subst h2
      refine ne_distance_of_head _ '\n' ?_ (by decide) r
      rfl
    rcases List.mem_append.mp hs with h1 | hs
    · have h2 := mem_ite_singleton h1
      subst h2
      refine ne_distance_of_head _ 'C' ?_ (by decide) r
      rfl
    rcases List.mem_append.mp hs with h1 | hs
    · have h2 := mem_ite_singleton h1
      subst h2
      refine ne_distance_of_head _ 'C' ?_ (by decide) r
      rfl
    rcases List.mem_append.mp hs with h1 | hs
    · have h2 := mem_ite_singleton h1
      subst h2
      refine ne_distance_of_head _ 'P' ?_ (by decide) r
      rfl
    rcases List.mem_append.mp hs with h1 | hs
    · have h2 := mem_ite_singleton h1
      subst h2
      refine ne_distance_of_head _ 'A' ?_ (by decide) r
      rfl
    rcases List.mem_append.mp hs with h1 | hs
    · have h2 := mem_ite_singleton h1
      subst h2
      refine ne_distance_of_head _ 'F' ?_ (by decide) r
      rfl
    rcases List.mem_append.mp hs with h1 | hs
    · have h2 := mem_ite_singleton h1
      subst h2
      refine ne_distance_of_head _ 'P' ?_ (by decide) r
      rfl
    · have h2 := List.mem_singleton.mp hs
      subst h2
      exact empty_ne_distance r

/-- A venue hit with no recorded distance. -/
def vNone : VenueHit := ⟨⟨"Mystery Venue", "", "", none, "", "", "", ""⟩, "", none⟩

/-- A venue hit recorded 1000 km from campus. -/
def vFar : VenueHit := ⟨⟨"Far Venue", "", "", some 1000, "", "", "", ""⟩, "", none⟩

/-- Witness for C10 on a concrete sorted pair. -/
theorem C10_witness :
    (999 : ℚ) ≤ 1000 ∧
    (∀ s ∈ venueParts vNone, ∀ r : String, s ≠ "Distance: " ++ r) := by
  have hkey : venueSortKey vNone ≤ venueSortKey vFar := by
    show (999 : ℚ) ≤ 1000
    norm_num
  have hsort : sortedVenues [vNone, vFar] = [vNone, vFar] := by
    simp [sortedVenues, List.mergeSort, List.splitInTwo, List.merge, hkey]
  have hl : 0 < (sortedVenues [vNone, vFar]).length := by
    rw [hsort]
    simp
  have hl2 : 1 < (sortedVenues [vNone, vFar]).length := by
    rw [hsort]
    simp
  have h0 : ((sortedVenues [vNone, vFar]).get ⟨0, hl⟩).metadata.distance_from_campus
      = none := by
    rw [List.get_of_eq hsort]
    rfl
  have h1 : ((sortedVenues [vNone, vFar]).get ⟨1, hl2⟩).metadata.distance_from_campus
      = some 1000 := by
    rw [List.get_of_eq hsort]
    rfl
  exact ⟨C10_venue_sort_and_distance_line.1 [vNone, vFar] ⟨0, hl⟩ ⟨1, hl2⟩
      (by simp [Fin.lt_def]) h0 1000 h1,
    C10_venue_sort_and_distance_line.2 vNone (Or.inl rfl)⟩

/-- Helper: a `filterMap` that hits no `none` is a `map`. -/
lemma filterMap_all_some {α β : Type} (f : α → Option β) (g : α → β) (l : List α)
    (h : ∀ a ∈ l, f a = some (g a)) : l.filterMap f = l.map g := by
  induction l with
  | nil => rfl
  | cons x xs ih =>
    rw [List.filterMap_cons, h x (by simp), List.map_cons,
      ih (fun a ha => h a (by simp [ha]))]

/-- The structured-store row of the C4 example. -/
def pgRow4 : PgCourseRow :=
  ⟨"CMPE 113", "Introduction to Programming", "CMPE", "Undergraduate", "4", "6",
    "Basics of programming.", [], "Dr. X", "", ""⟩

/-- A vector hit for a different course. -/
def vecHitMath : VecCourseHit :=
  ⟨"MATH 101", "Calculus I", "MATH", "Undergraduate", "4", "6", "Dr. M", "", "", "doc", none⟩

/-- Another vector hit for a different course. -/
def vecHitPhys : VecCourseHit :=
  ⟨"PHYS 102", "Physics II", "PHYS", "Undergraduate", "4", "6", "Dr. P", "", "", "doc", none⟩

/-- C4, counterexample: with `top_k = 1` and an exact structured match, the
endpoint still requests `max(top_k - 1, 1) = 1` vector result
(courses.py line 165), so the response holds 2 courses — the total result
count is not unchanged. -/
theorem C4_counterexample :
    isCodeQuery "CMPE 113" = true ∧
    (fun s => if s = "CMPE113" then some pgRow4 else none)
        (stripSpaces (upperStr "CMPE 113")) = some pgRow4 ∧
    (searchCourses "CMPE 113" 1
        (fun s => if s = "CMPE113" then some pgRow4 else none)
        (fun _ => [vecHitMath])).length = 2 := by
  refine ⟨by decide, by decide, by decide⟩

/-- C4 (amended): for a query matching the strict code pattern with an exact
structured match, the exact match is placed first with similarity 1.0 and is
deduplicated by course code so it appears exactly once even if the vector
search also returns it; the vector-search `top_k` is reduced by one, but at
least one vector result is always requested, so the total count equals
`top_k` only when `top_k ≥ 2` and the vector search returns exactly
`top_k - 1` hits none of which duplicates the exact match. -/
theorem C4_exact_match :
    ∀ (query : String) (topK : ℤ) (pgLookup : String → Option PgCourseRow)
      (vecQuery : ℤ → List VecCourseHit) (row : PgCourseRow),
      isCodeQuery query = true →
      pgLookup (stripSpaces (upperStr query)) = some row →
      (searchCourses query topK pgLookup vecQuery).head? = some (exactResponse row) ∧
      (exactResponse row).similarity_score = some 1 ∧
      (searchCourses query topK pgLookup vecQuery).countP
          (fun c => c.course_code == row.course_code) = 1 ∧
      (2 ≤ topK →
        (∀ h ∈ vecQuery (topK - 1), h.course_code ≠ row.course_code) →
        (vecQuery (topK - 1)).length = (topK - 1).toNat →
        (searchCourses query topK pgLookup vecQuery).length = topK.toNat) := by
  intro query topK pgLookup vecQuery row hcode hpg
  have hform : searchCourses query topK pgLookup vecQuery
      = exactResponse row :: (vecQuery (max (topK - 1) 1)).filterMap
          (fun h => if h.course_code = row.course_code then none
            else some (vecResponse h)) := by
    simp only [searchCourses, hcode, hpg]
    simp [exactResponse]
  refine ⟨?_, rfl, ?_, ?_⟩
  · rw [hform]
    rfl
  · rw [hform, List.countP_cons]
    have hz : ((vecQuery (max (topK - 1) 1)).filterMap
        (fun h => if h.course_code = row.course_code then none
          else some (vecResponse h))).countP
        (fun c => c.course_code == row.course_code) = 0 := by
      rw [List.countP_eq_zero]
      intro a ha
      rcases List.mem_filterMap.mp ha with ⟨h, _, hfa⟩
      by_cases hcc : h.course_code = row.course_code
      · rw [if_pos hcc] at hfa
        exact Option.noConfusion hfa
      · rw [if_neg hcc] at hfa
        have := Option.some.inj hfa
        subst this
        simpa [vecResponse] using hcc
    rw [hz]
    simp [exactResponse]
  · intro h2 hnodup hlen
    have hmax : max (topK - 1) 1 = topK - 1 := by omega
    rw [hform, hmax]
    have hfm : (vecQuery (topK - 1)).filterMap
        (fun h => if h.course_code = row.course_code then none
          else some (vecResponse h))
        = (vecQuery (topK - 1)).map vecResponse :=
      filterMap_all_some _ _ _ (fun a ha => by rw [if_neg (hnodup a ha)])
    rw [hfm, List.length_cons, List.length_map, hlen]
    omega

/-- Witness for C4: query "CMPE 113", top_k = 3, exact match present, two
distinct vector hits; the exact match leads with similarity 1.0 and the
total count is 3. -/
theorem C4_witness :
    isCodeQuery "CMPE 113" = true ∧
    (searchCourses "CMPE 113" 3
        (fun s => if s = "CMPE113" then some pgRow4 else none)
        (fun _ => [vecHitMath, vecHitPhys])).head? = some (exactResponse pgRow4) ∧
    (searchCourses "CMPE 113" 3
        (fun s => if s = "CMPE113" then some pgRow4 else none)
        (fun _ => [vecHitMath, vecHitPhys])).length = 3 := by
  have h := C4_exact_match "CMPE 113" 3
      (fun s => if s = "CMPE113" then some pgRow4 else none)
      (fun _ => [vecHitMath, vecHitPhys]) pgRow4 (by decide) (by decide)
  exact ⟨by decide, h.1, h.2.2.2 (by decide) (by decide) (by decide)⟩
